import Mathlib

/-!
Shallow embedding of the BCSR (block compressed sparse row) matrix handle of
`src/base/hip/hip_matrix_bcsr.cpp` (class `HIPAcceleratorMatrixBCSR`) and its
host-side mirror, together with the transfer, conversion and apply operations
that the specification describes.

Modelling conventions:
* C `int` scalars become `Int`; the `assert(...)` preconditions become explicit
  guards, so a fallible operation returns `Option` (with `none` for an
  assertion failure) or an explicit result constructor `assertFail`.
* Device and host arrays become `Option (List _)`; `none` models a `NULL`
  pointer, `some xs` an allocated array holding `xs`.
* Each `hipMemcpy`/`hipMemcpyAsync` call is recorded as a `CopyEvent` carrying
  the element count, the per-element byte size written in the source
  (`sizeof(int)` or `sizeof(ValueType)`), and the direction, in issue order.
* The external regrouping kernel `csr_to_bcsr_hip` and the external multiply
  kernel `rocsparseTbsrmv` are not part of the sources; they are taken as
  function parameters, so every theorem quantifies over their behaviour.
-/

namespace Rocalution

/-- Matrix storage formats relevant to the dispatch logic (`GetMatFormat`). -/
inductive MatFormat where
  | BCSR
  | CSR
  | OTHER
deriving DecidableEq

/-- Direction of a `hipMemcpy` call. -/
inductive CopyDir where
  | hostToDevice
  | deviceToHost
  | deviceToDevice
deriving DecidableEq

/-- One issued memory copy: element count, per-element size in bytes (as the
byte count passed to `hipMemcpy` is literally `count * sizeof(T)` in the
source), and direction. -/
structure CopyEvent where
  count : Int
  elemBytes : Int
  dir : CopyDir
deriving DecidableEq

/-- Diagnostics emitted on the unsupported-type fatal path:
`LOG_INFO("Error unsupported HIP matrix type"); this->Info(); arg.Info();`. -/
inductive Diag where
  | unsupportedType
  | infoThis
  | infoArg
deriving DecidableEq

/-- `sizeof(int)` on the modelled platform. -/
def sizeofInt : Int := 4

/-- The `MatrixBCSR` storage struct (`matrix_formats.hpp`): three arrays plus
the block layout fields, exactly the fields the implementation reads. -/
structure MatrixBCSR (V : Type) where
  row_offset : Option (List Int)
  col : Option (List Int)
  val : Option (List V)
  nrowb : Int
  ncolb : Int
  nnzb : Int
  blockdim : Int
deriving DecidableEq

/-- A BCSR matrix handle: the scalar shape fields `nrow_`, `ncol_`, `nnz_`
of `BaseMatrix`, the `blockdim_` member of `HIPAcceleratorMatrixBCSR`, and the
owned `mat_` storage.  The host-side class `HostMatrixBCSR` (its sources are
not included; the spec describes it as the host mirror of the same layout)
shares this representation. -/
structure BCSRHandle (V : Type) where
  nrow_ : Int
  ncol_ : Int
  nnz_ : Int
  blockdim_ : Int
  mat_ : MatrixBCSR V
deriving DecidableEq

/-- The fields of a `HIPAcceleratorMatrixCSR` source that `ConvertFrom` reads
before handing off to the regrouping kernel. -/
structure HIPAcceleratorMatrixCSR (V : Type) where
  nnz_ : Int
  nrow_ : Int
  ncol_ : Int
deriving DecidableEq

/-- A `HostMatrix` argument as seen by the host-direction copies: either an
actual `HostMatrixBCSR`, or some other host matrix class carrying its format
tag and nnz. -/
inductive HostOperand (V : Type) where
  | bcsr (m : BCSRHandle V)
  | nonBcsr (fmt : MatFormat) (nnz : Int)
deriving DecidableEq

/-- A `BaseMatrix` argument as seen by the `CopyFrom`/`CopyTo`/`ConvertFrom`
run-time dispatch. -/
inductive BaseOperand (V : Type) where
  | hipBcsr (m : BCSRHandle V)
  | host (h : HostOperand V)
  | hipCsr (c : HIPAcceleratorMatrixCSR V)
  | unknown (fmt : MatFormat) (nnz : Int)
deriving DecidableEq

/-- `GetMatFormat` of a host operand. -/
def HostOperand.GetMatFormat {V : Type} : HostOperand V → MatFormat
  | .bcsr _ => MatFormat.BCSR
  | .nonBcsr fmt _ => fmt

/-- `GetMatFormat` of a base operand. -/
def BaseOperand.GetMatFormat {V : Type} : BaseOperand V → MatFormat
  | .hipBcsr _ => MatFormat.BCSR
  | .host h => h.GetMatFormat
  | .hipCsr _ => MatFormat.CSR
  | .unknown fmt _ => fmt

/-- `GetNnz` of a base operand. -/
def BaseOperand.GetNnz {V : Type} : BaseOperand V → Int
  | .hipBcsr m => m.nnz_
  | .host (.bcsr m) => m.nnz_
  | .host (.nonBcsr _ nnz) => nnz
  | .hipCsr c => c.nnz_
  | .unknown _ nnz => nnz

/-- A `hipMemcpy` of `count` elements from `src` into `dst` at the logical
level: the first `count` elements of the destination are replaced by those of
the source.  A copy through a `NULL` pointer leaves the destination model
unchanged. -/
def memcpyArr {α : Type} (dst src : Option (List α)) (count : Int) : Option (List α) :=
  match dst, src with
  | some d, some s => some (s.take count.toNat ++ d.drop count.toNat)
  | _, _ => dst

/-- `HIPAcceleratorMatrixBCSR::Clear` (hip_matrix_bcsr.cpp:139-151): frees the
three arrays and zeroes the scalar shape fields, but only when `nnz_ > 0`, and
never touches the block layout fields `nrowb`, `ncolb`, `nnzb`, `blockdim`. -/
def Clear {V : Type} (m : BCSRHandle V) : BCSRHandle V :=
  if m.nnz_ > 0 then
    { m with
      nrow_ := 0
      ncol_ := 0
      nnz_ := 0
      mat_ := { m.mat_ with row_offset := none, col := none, val := none } }
  else
    m

/-- `HIPAcceleratorMatrixBCSR::AllocateBCSR` (hip_matrix_bcsr.cpp:100-136).
The four `assert`s become the guard; `none` models an assertion failure.
With `nnzb > 0` the three arrays are allocated and zero-filled
(`set_to_zero_hip`) and all shape fields are set; with `nnzb == 0` nothing
further happens. -/
def AllocateBCSR {V : Type} [Zero V] (m : BCSRHandle V)
    (nnzb nrowb ncolb blockdim : Int) : Option (BCSRHandle V) :=
  if 0 ≤ nnzb ∧ 0 ≤ ncolb ∧ 0 ≤ nrowb ∧ 1 < blockdim then
    let m1 := if m.nnz_ > 0 then Clear m else m
    if 0 < nnzb then
      some
        { m1 with
          nrow_ := nrowb * blockdim
          ncol_ := ncolb * blockdim
          nnz_ := nnzb * blockdim * blockdim
          mat_ :=
            { row_offset := some (List.replicate (nrowb + 1).toNat 0)
              col := some (List.replicate nnzb.toNat 0)
              val := some (List.replicate (nnzb * blockdim * blockdim).toNat (0 : V))
              nrowb := nrowb
              ncolb := ncolb
              nnzb := nnzb
              blockdim := blockdim } }
    else
      some m1
  else
    none

/-- `HIPAcceleratorMatrixBCSR::SetDataPtrBCSR` (hip_matrix_bcsr.cpp:154-182):
asserts non-null arrays and positive sizes, clears, then takes ownership of
the arrays and sets `blockdim_` together with all shape fields. -/
def SetDataPtrBCSR {V : Type} (m : BCSRHandle V)
    (row_offset col : Option (List Int)) (val : Option (List V))
    (nnzb nrowb ncolb blockdim : Int) : Option (BCSRHandle V) :=
  if row_offset.isSome ∧ col.isSome ∧ val.isSome ∧
      0 < nnzb ∧ 0 < nrowb ∧ 0 < ncolb ∧ 1 < blockdim then
    let m1 := Clear m
    some
      { m1 with
        blockdim_ := blockdim
        nrow_ := nrowb * blockdim
        ncol_ := ncolb * blockdim
        nnz_ := nnzb * blockdim * blockdim
        mat_ :=
          { row_offset := row_offset
            col := col
            val := val
            nrowb := nrowb
            ncolb := ncolb
            nnzb := nnzb
            blockdim := blockdim } }
  else
    none

/-- `HIPAcceleratorMatrixBCSR::LeaveDataPtrBCSR` (hip_matrix_bcsr.cpp:184-212):
asserts a populated handle, hands the three arrays and `mat_.blockdim` back to
the caller, nulls the pointers, zeroes `mat_.blockdim` and the scalar shape
fields.  The block counts `nrowb`, `ncolb`, `nnzb` are left as they were. -/
def LeaveDataPtrBCSR {V : Type} (m : BCSRHandle V) :
    Option (Option (List Int) × Option (List Int) × Option (List V) × Int × BCSRHandle V) :=
  if 0 < m.nrow_ ∧ 0 < m.ncol_ ∧ 0 < m.nnz_ ∧ 1 < m.mat_.blockdim then
    some
      (m.mat_.row_offset, m.mat_.col, m.mat_.val, m.mat_.blockdim,
        { m with
          nrow_ := 0
          ncol_ := 0
          nnz_ := 0
          mat_ := { m.mat_ with row_offset := none, col := none, val := none, blockdim := 0 } })
  else
    none

/-- Result of a copy operation: `ok` returns the updated destination handle
and the copy events issued in order; `assertFail` models a failed `assert`;
`fatal` models `FATAL_ERROR` preceded by the listed diagnostics. -/
inductive CopyResult (V : Type) where
  | ok (dst : BCSRHandle V) (events : List CopyEvent)
  | assertFail
  | fatal (logs : List Diag)
deriving DecidableEq

/-- `HIPAcceleratorMatrixBCSR::CopyFromHost` (hip_matrix_bcsr.cpp:215-267).
`m` is `this` (the device destination), `src` the `HostMatrix` argument.
Format assertion, first-use allocation when `this->nnz_ == 0`, the seven shape
assertions, then three blocking copies sized `(nrowb+1)*sizeof(int)`,
`nnzb*sizeof(int)`, `nnzb*blockdim*blockdim*sizeof(ValueType)` using
`this->mat_` fields; an unsupported host class is fatal. -/
def CopyFromHost {V : Type} [Zero V] (sizeofV : Int) (m : BCSRHandle V)
    (src : HostOperand V) : CopyResult V :=
  if MatFormat.BCSR ≠ src.GetMatFormat then CopyResult.assertFail
  else
    match src with
    | .bcsr cast =>
      match (if m.nnz_ = 0 then
              AllocateBCSR m cast.mat_.nnzb cast.mat_.nrowb cast.mat_.ncolb cast.mat_.blockdim
             else some m) with
      | none => CopyResult.assertFail
      | some d =>
        if d.nnz_ = cast.nnz_ ∧ d.nrow_ = cast.nrow_ ∧ d.ncol_ = cast.ncol_ ∧
            d.mat_.nrowb = cast.mat_.nrowb ∧ d.mat_.ncolb = cast.mat_.ncolb ∧
            d.mat_.nnzb = cast.mat_.nnzb ∧ d.mat_.blockdim = cast.mat_.blockdim then
          CopyResult.ok
            { d with
              mat_ :=
                { d.mat_ with
                  row_offset := memcpyArr d.mat_.row_offset cast.mat_.row_offset (d.mat_.nrowb + 1)
                  col := memcpyArr d.mat_.col cast.mat_.col d.mat_.nnzb
                  val := memcpyArr d.mat_.val cast.mat_.val
                    (d.mat_.nnzb * d.mat_.blockdim * d.mat_.blockdim) } }
            [⟨d.mat_.nrowb + 1, sizeofInt, CopyDir.hostToDevice⟩,
             ⟨d.mat_.nnzb, sizeofInt, CopyDir.hostToDevice⟩,
             ⟨d.mat_.nnzb * d.mat_.blockdim * d.mat_.blockdim, sizeofV, CopyDir.hostToDevice⟩]
        else CopyResult.assertFail
    | .nonBcsr _ _ =>
      CopyResult.fatal [Diag.unsupportedType, Diag.infoThis, Diag.infoArg]

/-- `HIPAcceleratorMatrixBCSR::CopyToHost` (hip_matrix_bcsr.cpp:270-322).
`m` is `this` (the device source), `dst` the `HostMatrix*` argument; the host
destination is allocated when its own `nnz_ == 0`, and the copy sizes use
`this->mat_` (the source's) fields. -/
def CopyToHost {V : Type} [Zero V] (sizeofV : Int) (m : BCSRHandle V)
    (dst : HostOperand V) : CopyResult V :=
  if MatFormat.BCSR ≠ dst.GetMatFormat then CopyResult.assertFail
  else
    match dst with
    | .bcsr cast =>
      match (if cast.nnz_ = 0 then
              AllocateBCSR cast m.mat_.nnzb m.mat_.nrowb m.mat_.ncolb m.mat_.blockdim
             else some cast) with
      | none => CopyResult.assertFail
      | some d =>
        if m.nnz_ = d.nnz_ ∧ m.nrow_ = d.nrow_ ∧ m.ncol_ = d.ncol_ ∧
            m.mat_.nrowb = d.mat_.nrowb ∧ m.mat_.ncolb = d.mat_.ncolb ∧
            m.mat_.nnzb = d.mat_.nnzb ∧ m.mat_.blockdim = d.mat_.blockdim then
          CopyResult.ok
            { d with
              mat_ :=
                { d.mat_ with
                  row_offset := memcpyArr d.mat_.row_offset m.mat_.row_offset (m.mat_.nrowb + 1)
                  col := memcpyArr d.mat_.col m.mat_.col m.mat_.nnzb
                  val := memcpyArr d.mat_.val m.mat_.val
                    (m.mat_.nnzb * m.mat_.blockdim * m.mat_.blockdim) } }
            [⟨m.mat_.nrowb + 1, sizeofInt, CopyDir.deviceToHost⟩,
             ⟨m.mat_.nnzb, sizeofInt, CopyDir.deviceToHost⟩,
             ⟨m.mat_.nnzb * m.mat_.blockdim * m.mat_.blockdim, sizeofV, CopyDir.deviceToHost⟩]
        else CopyResult.assertFail
    | .nonBcsr _ _ =>
      CopyResult.fatal [Diag.unsupportedType, Diag.infoThis, Diag.infoArg]

/-- `HIPAcceleratorMatrixBCSR::CopyFrom` (hip_matrix_bcsr.cpp:324-386):
device-to-device body when the source is a device BCSR matrix, delegation to
`CopyFromHost` for a host source, otherwise the fatal unsupported path. -/
def CopyFrom {V : Type} [Zero V] (sizeofV : Int) (m : BCSRHandle V)
    (src : BaseOperand V) : CopyResult V :=
  if MatFormat.BCSR ≠ src.GetMatFormat then CopyResult.assertFail
  else
    match src with
    | .hipBcsr cast =>
      match (if m.nnz_ = 0 then
              AllocateBCSR m cast.mat_.nnzb cast.mat_.nrowb cast.mat_.ncolb cast.mat_.blockdim
             else some m) with
      | none => CopyResult.assertFail
      | some d =>
        if d.nnz_ = cast.nnz_ ∧ d.nrow_ = cast.nrow_ ∧ d.ncol_ = cast.ncol_ ∧
            d.mat_.nrowb = cast.mat_.nrowb ∧ d.mat_.ncolb = cast.mat_.ncolb ∧
            d.mat_.nnzb = cast.mat_.nnzb ∧ d.mat_.blockdim = cast.mat_.blockdim then
          CopyResult.ok
            { d with
              mat_ :=
                { d.mat_ with
                  row_offset := memcpyArr d.mat_.row_offset cast.mat_.row_offset (d.mat_.nrowb + 1)
                  col := memcpyArr d.mat_.col cast.mat_.col d.mat_.nnzb
                  val := memcpyArr d.mat_.val cast.mat_.val
                    (d.mat_.nnzb * d.mat_.blockdim * d.mat_.blockdim) } }
            [⟨d.mat_.nrowb + 1, sizeofInt, CopyDir.deviceToDevice⟩,
             ⟨d.mat_.nnzb, sizeofInt, CopyDir.deviceToDevice⟩,
             ⟨d.mat_.nnzb * d.mat_.blockdim * d.mat_.blockdim, sizeofV, CopyDir.deviceToDevice⟩]
        else CopyResult.assertFail
    | .host h => CopyFromHost sizeofV m h
    | _ => CopyResult.fatal [Diag.unsupportedType, Diag.infoThis, Diag.infoArg]

/-- `HIPAcceleratorMatrixBCSR::CopyTo` (hip_matrix_bcsr.cpp:388-450). -/
def CopyTo {V : Type} [Zero V] (sizeofV : Int) (m : BCSRHandle V)
    (dst : BaseOperand V) : CopyResult V :=
  if MatFormat.BCSR ≠ dst.GetMatFormat then CopyResult.assertFail
  else
    match dst with
    | .hipBcsr cast =>
      match (if cast.nnz_ = 0 then
              AllocateBCSR cast m.mat_.nnzb m.mat_.nrowb m.mat_.ncolb m.mat_.blockdim
             else some cast) with
      | none => CopyResult.assertFail
      | some d =>
        if m.nnz_ = d.nnz_ ∧ m.nrow_ = d.nrow_ ∧ m.ncol_ = d.ncol_ ∧
            m.mat_.nrowb = d.mat_.nrowb ∧ m.mat_.ncolb = d.mat_.ncolb ∧
            m.mat_.nnzb = d.mat_.nnzb ∧ m.mat_.blockdim = d.mat_.blockdim then
          CopyResult.ok
            { d with
              mat_ :=
                { d.mat_ with
                  row_offset := memcpyArr d.mat_.row_offset m.mat_.row_offset (m.mat_.nrowb + 1)
                  col := memcpyArr d.mat_.col m.mat_.col m.mat_.nnzb
                  val := memcpyArr d.mat_.val m.mat_.val
                    (m.mat_.nnzb * m.mat_.blockdim * m.mat_.blockdim) } }
            [⟨m.mat_.nrowb + 1, sizeofInt, CopyDir.deviceToDevice⟩,
             ⟨m.mat_.nnzb, sizeofInt, CopyDir.deviceToDevice⟩,
             ⟨m.mat_.nnzb * m.mat_.blockdim * m.mat_.blockdim, sizeofV, CopyDir.deviceToDevice⟩]
        else CopyResult.assertFail
    | .host h => CopyToHost sizeofV m h
    | _ => CopyResult.fatal [Diag.unsupportedType, Diag.infoThis, Diag.infoArg]

/-- `HIPAcceleratorMatrixBCSR::CopyFromHostAsync` (hip_matrix_bcsr.cpp:452-508).
As `CopyFromHost`, except that the three copies are issued only under
`if (this->nnz_ > 0)`, and the value-array copy size is written
`nnzb*blockdim*blockdim*sizeof(int)` in the source — `sizeof(int)`, not
`sizeof(ValueType)` (line 496). -/
def CopyFromHostAsync {V : Type} [Zero V] (m : BCSRHandle V)
    (src : HostOperand V) : CopyResult V :=
  if MatFormat.BCSR ≠ src.GetMatFormat then CopyResult.assertFail
  else
    match src with
    | .bcsr cast =>
      match (if m.nnz_ = 0 then
              AllocateBCSR m cast.mat_.nnzb cast.mat_.nrowb cast.mat_.ncolb cast.mat_.blockdim
             else some m) with
      | none => CopyResult.assertFail
      | some d =>
        if d.nnz_ = cast.nnz_ ∧ d.nrow_ = cast.nrow_ ∧ d.ncol_ = cast.ncol_ ∧
            d.mat_.nrowb = cast.mat_.nrowb ∧ d.mat_.ncolb = cast.mat_.ncolb ∧
            d.mat_.nnzb = cast.mat_.nnzb ∧ d.mat_.blockdim = cast.mat_.blockdim then
          if d.nnz_ > 0 then
            CopyResult.ok
              { d with
                mat_ :=
                  { d.mat_ with
                    row_offset := memcpyArr d.mat_.row_offset cast.mat_.row_offset (d.mat_.nrowb + 1)
                    col := memcpyArr d.mat_.col cast.mat_.col d.mat_.nnzb
                    val := memcpyArr d.mat_.val cast.mat_.val
                      (d.mat_.nnzb * d.mat_.blockdim * d.mat_.blockdim) } }
              [⟨d.mat_.nrowb + 1, sizeofInt, CopyDir.hostToDevice⟩,
               ⟨d.mat_.nnzb, sizeofInt, CopyDir.hostToDevice⟩,
               ⟨d.mat_.nnzb * d.mat_.blockdim * d.mat_.blockdim, sizeofInt, CopyDir.hostToDevice⟩]
          else CopyResult.ok d []
        else CopyResult.assertFail
    | .nonBcsr _ _ =>
      CopyResult.fatal [Diag.unsupportedType, Diag.infoThis, Diag.infoArg]

/-- `HIPAcceleratorMatrixBCSR::CopyToHostAsync` (hip_matrix_bcsr.cpp:510-566).
The host destination is allocated when `cast_mat->nnz_ == 0`; the copies are
guarded by `if (this->nnz_ > 0)` on the device source, and the value-array
copy again uses `sizeof(int)` (line 554). -/
def CopyToHostAsync {V : Type} [Zero V] (m : BCSRHandle V)
    (dst : HostOperand V) : CopyResult V :=
  if MatFormat.BCSR ≠ dst.GetMatFormat then CopyResult.assertFail
  else
    match dst with
    | .bcsr cast =>
      match (if cast.nnz_ = 0 then
              AllocateBCSR cast m.mat_.nnzb m.mat_.nrowb m.mat_.ncolb m.mat_.blockdim
             else some cast) with
      | none => CopyResult.assertFail
      | some d =>
        if m.nnz_ = d.nnz_ ∧ m.nrow_ = d.nrow_ ∧ m.ncol_ = d.ncol_ ∧
            m.mat_.nrowb = d.mat_.nrowb ∧ m.mat_.ncolb = d.mat_.ncolb ∧
            m.mat_.nnzb = d.mat_.nnzb ∧ m.mat_.blockdim = d.mat_.blockdim then
          if m.nnz_ > 0 then
            CopyResult.ok
              { d with
                mat_ :=
                  { d.mat_ with
                    row_offset := memcpyArr d.mat_.row_offset m.mat_.row_offset (m.mat_.nrowb + 1)
                    col := memcpyArr d.mat_.col m.mat_.col m.mat_.nnzb
                    val := memcpyArr d.mat_.val m.mat_.val
                      (m.mat_.nnzb * m.mat_.blockdim * m.mat_.blockdim) } }
              [⟨m.mat_.nrowb + 1, sizeofInt, CopyDir.deviceToHost⟩,
               ⟨m.mat_.nnzb, sizeofInt, CopyDir.deviceToHost⟩,
               ⟨m.mat_.nnzb * m.mat_.blockdim * m.mat_.blockdim, sizeofInt, CopyDir.deviceToHost⟩]
          else CopyResult.ok d []
        else CopyResult.assertFail
    | .nonBcsr _ _ =>
      CopyResult.fatal [Diag.unsupportedType, Diag.infoThis, Diag.infoArg]

/-- `HIPAcceleratorMatrixBCSR::CopyFromAsync` (hip_matrix_bcsr.cpp:568-633):
device-to-device async body (copies guarded by the destination's `nnz_ > 0`,
value copy sized with `sizeof(int)`, line 613), host delegation, fatal path. -/
def CopyFromAsync {V : Type} [Zero V] (m : BCSRHandle V)
    (src : BaseOperand V) : CopyResult V :=
  if MatFormat.BCSR ≠ src.GetMatFormat then CopyResult.assertFail
  else
    match src with
    | .hipBcsr cast =>
      match (if m.nnz_ = 0 then
              AllocateBCSR m cast.mat_.nnzb cast.mat_.nrowb cast.mat_.ncolb cast.mat_.blockdim
             else some m) with
      | none => CopyResult.assertFail
      | some d =>
        if d.nnz_ = cast.nnz_ ∧ d.nrow_ = cast.nrow_ ∧ d.ncol_ = cast.ncol_ ∧
            d.mat_.nrowb = cast.mat_.nrowb ∧ d.mat_.ncolb = cast.mat_.ncolb ∧
            d.mat_.nnzb = cast.mat_.nnzb ∧ d.mat_.blockdim = cast.mat_.blockdim then
          if d.nnz_ > 0 then
            CopyResult.ok
              { d with
                mat_ :=
                  { d.mat_ with
                    row_offset := memcpyArr d.mat_.row_offset cast.mat_.row_offset (d.mat_.nrowb + 1)
                    col := memcpyArr d.mat_.col cast.mat_.col d.mat_.nnzb
                    val := memcpyArr d.mat_.val cast.mat_.val
                      (d.mat_.nnzb * d.mat_.blockdim * d.mat_.blockdim) } }
              [⟨d.mat_.nrowb + 1, sizeofInt, CopyDir.deviceToDevice⟩,
               ⟨d.mat_.nnzb, sizeofInt, CopyDir.deviceToDevice⟩,
               ⟨d.mat_.nnzb * d.mat_.blockdim * d.mat_.blockdim, sizeofInt, CopyDir.deviceToDevice⟩]
          else CopyResult.ok d []
        else CopyResult.assertFail
    | .host h => CopyFromHostAsync m h
    | _ => CopyResult.fatal [Diag.unsupportedType, Diag.infoThis, Diag.infoArg]

/-- `HIPAcceleratorMatrixBCSR::CopyToAsync` (hip_matrix_bcsr.cpp:635-700).
Faithfully transcribed: the first-use allocation of the destination is guarded
by `if (this->nnz_ == 0)` — the SOURCE's nnz (line 649) — unlike every other
copy variant, which tests the destination's; the copies are guarded by the
source's `nnz_ > 0`, and the value copy is sized with `sizeof(int)`
(line 680). -/
def CopyToAsync {V : Type} [Zero V] (m : BCSRHandle V)
    (dst : BaseOperand V) : CopyResult V :=
  if MatFormat.BCSR ≠ dst.GetMatFormat then CopyResult.assertFail
  else
    match dst with
    | .hipBcsr cast =>
      match (if m.nnz_ = 0 then
              AllocateBCSR cast m.mat_.nnzb m.mat_.nrowb m.mat_.ncolb m.mat_.blockdim
             else some cast) with
      | none => CopyResult.assertFail
      | some d =>
        if m.nnz_ = d.nnz_ ∧ m.nrow_ = d.nrow_ ∧ m.ncol_ = d.ncol_ ∧
            m.mat_.nrowb = d.mat_.nrowb ∧ m.mat_.ncolb = d.mat_.ncolb ∧
            m.mat_.nnzb = d.mat_.nnzb ∧ m.mat_.blockdim = d.mat_.blockdim then
          if m.nnz_ > 0 then
            CopyResult.ok
              { d with
                mat_ :=
                  { d.mat_ with
                    row_offset := memcpyArr d.mat_.row_offset m.mat_.row_offset (m.mat_.nrowb + 1)
                    col := memcpyArr d.mat_.col m.mat_.col m.mat_.nnzb
                    val := memcpyArr d.mat_.val m.mat_.val
                      (m.mat_.nnzb * m.mat_.blockdim * m.mat_.blockdim) } }
              [⟨m.mat_.nrowb + 1, sizeofInt, CopyDir.deviceToDevice⟩,
               ⟨m.mat_.nnzb, sizeofInt, CopyDir.deviceToDevice⟩,
               ⟨m.mat_.nnzb * m.mat_.blockdim * m.mat_.blockdim, sizeofInt, CopyDir.deviceToDevice⟩]
          else CopyResult.ok d []
        else CopyResult.assertFail
    | .host h => CopyToHostAsync m h
    | _ => CopyResult.fatal [Diag.unsupportedType, Diag.infoThis, Diag.infoArg]

/-- Result of `ConvertFrom`: the returned boolean together with the final
state of `this`, or an assertion failure / fatal error raised from the copy it
may delegate to. -/
inductive ConvertResult (V : Type) where
  | ret (b : Bool) (st : BCSRHandle V)
  | assertFail
  | fatal (logs : List Diag)
deriving DecidableEq

/-- `HIPAcceleratorMatrixBCSR::ConvertFrom` (hip_matrix_bcsr.cpp:702-747).
`kernel` models the external `csr_to_bcsr_hip` regrouping kernel (its sources
are not included; hip_conversion.hpp).  Modelled from the spec: the kernel
consumes the CSR source and `this->mat_` with `blockdim` pre-set, and either
produces the regrouped layout (`some`) or fails leaving the destination layout
unmodified (`none`), per spec section 4.2.  The function clears first, returns
`true` for an empty source of any type, copies for a device BCSR source,
invokes the kernel for a device CSR source (recomputing the scalar shape from
the kernel's resulting block layout on success), and returns `false`
otherwise. -/
def ConvertFrom {V : Type} [Zero V] (sizeofV : Int)
    (kernel : HIPAcceleratorMatrixCSR V → MatrixBCSR V → Option (MatrixBCSR V))
    (m : BCSRHandle V) (src : BaseOperand V) : ConvertResult V :=
  let m1 := Clear m
  if src.GetNnz = 0 then ConvertResult.ret true m1
  else
    match src with
    | .hipBcsr cast =>
      match CopyFrom sizeofV m1 (BaseOperand.hipBcsr cast) with
      | .ok st _ => ConvertResult.ret true st
      | .assertFail => ConvertResult.assertFail
      | .fatal l => ConvertResult.fatal l
    | .hipCsr csr =>
      let m2 := Clear m1
      let seeded := { m2.mat_ with blockdim := m2.blockdim_ }
      match kernel csr seeded with
      | some newmat =>
        ConvertResult.ret true
          { m2 with
            mat_ := newmat
            nrow_ := newmat.nrowb * newmat.blockdim
            ncol_ := newmat.ncolb * newmat.blockdim
            nnz_ := newmat.nnzb * newmat.blockdim * newmat.blockdim }
      | none => ConvertResult.ret false { m2 with mat_ := seeded }
    | _ => ConvertResult.ret false m1

/-- A `BaseVector` argument to `Apply`/`ApplyAdd`: its size, whether the
dynamic cast to `HIPAcceleratorVector` succeeds, and its data `vec_`. -/
structure VecArg (V : Type) where
  size : Int
  isHip : Bool
  vec_ : List V
deriving DecidableEq

/-- Result of `Apply`/`ApplyAdd`: the output vector's final contents and
whether the backend multiply kernel (`rocsparseTbsrmv`) was invoked, or an
assertion failure. -/
inductive ApplyResult (V : Type) where
  | ok (out : List V) (kernelCalled : Bool)
  | assertFail
deriving DecidableEq

/-- `HIPAcceleratorMatrixBCSR::Apply` (hip_matrix_bcsr.cpp:749-793): the whole
body runs only under `if (this->nnz_ > 0)`; `bsrmv` models the external
`rocsparseTbsrmv` kernel, mapping `(alpha, layout, x, beta, y)` to the new
contents of `y`; `alpha = 1`, `beta = 0`. -/
def Apply {V : Type} [Zero V] [One V]
    (bsrmv : V → MatrixBCSR V → List V → V → List V → List V)
    (m : BCSRHandle V) (inp out : VecArg V) : ApplyResult V :=
  if m.nnz_ > 0 then
    if 0 ≤ inp.size ∧ 0 ≤ out.size ∧ inp.size = m.ncol_ ∧ out.size = m.nrow_ ∧
        inp.isHip ∧ out.isHip then
      ApplyResult.ok (bsrmv (1 : V) m.mat_ inp.vec_ (0 : V) out.vec_) true
    else ApplyResult.assertFail
  else ApplyResult.ok out.vec_ false

/-- `HIPAcceleratorMatrixBCSR::ApplyAdd` (hip_matrix_bcsr.cpp:795-839): same
shape with `alpha = scalar`, `beta = 1`. -/
def ApplyAdd {V : Type} [Zero V] [One V]
    (bsrmv : V → MatrixBCSR V → List V → V → List V → List V)
    (m : BCSRHandle V) (inp : VecArg V) (scalar : V) (out : VecArg V) : ApplyResult V :=
  if m.nnz_ > 0 then
    if 0 ≤ inp.size ∧ 0 ≤ out.size ∧ inp.size = m.ncol_ ∧ out.size = m.nrow_ ∧
        inp.isHip ∧ out.isHip then
      ApplyResult.ok (bsrmv scalar m.mat_ inp.vec_ (1 : V) out.vec_) true
    else ApplyResult.assertFail
  else ApplyResult.ok out.vec_ false

/-! ## Derived notions and concrete fixtures used by the theorems -/

/-- The claimed shape invariant: the handle's scalar shape fields equal the
values derived from its block layout. -/
abbrev DerivedConsistent {V : Type} (m : BCSRHandle V) : Prop :=
  m.nrow_ = m.mat_.nrowb * m.mat_.blockdim ∧
  m.ncol_ = m.mat_.ncolb * m.mat_.blockdim ∧
  m.nnz_ = m.mat_.nnzb * m.mat_.blockdim * m.mat_.blockdim

/-- Element counts of the copies issued by a copy operation (empty on the
assert-failure and fatal paths). -/
def eventCounts {V : Type} : CopyResult V → List Int
  | .ok _ evts => evts.map CopyEvent.count
  | _ => []

/-- Byte counts (count * element size) of the copies issued by a copy
operation. -/
def eventBytes {V : Type} : CopyResult V → List Int
  | .ok _ evts => evts.map (fun e => e.count * e.elemBytes)
  | _ => []

/-- A freshly constructed, properly empty handle: zero shape fields and null
arrays. -/
def freshM : BCSRHandle Int :=
  { nrow_ := 0, ncol_ := 0, nnz_ := 0, blockdim_ := 0,
    mat_ := { row_offset := none, col := none, val := none,
              nrowb := 0, ncolb := 0, nnzb := 0, blockdim := 0 } }

/-- The handle produced by `AllocateBCSR freshM 1 1 1 2`: one 2x2 block. -/
def allocM : BCSRHandle Int :=
  { nrow_ := 2, ncol_ := 2, nnz_ := 4, blockdim_ := 0,
    mat_ := { row_offset := some [0, 0], col := some [0], val := some [0, 0, 0, 0],
              nrowb := 1, ncolb := 1, nnzb := 1, blockdim := 2 } }

/-- A populated source handle: `nnzb = 1`, `nrowb = ncolb = 1`, `blockdim = 2`,
hence `nnz_ = 4`, holding the identity block. -/
def srcM : BCSRHandle Int :=
  { nrow_ := 2, ncol_ := 2, nnz_ := 4, blockdim_ := 0,
    mat_ := { row_offset := some [0, 1], col := some [0], val := some [1, 0, 0, 1],
              nrowb := 1, ncolb := 1, nnzb := 1, blockdim := 2 } }

/-- An empty handle whose block-descriptor fields carry `blockdim = 2` and
zero block counts (all arrays null). -/
def emptyBd2 : BCSRHandle Int :=
  { nrow_ := 0, ncol_ := 0, nnz_ := 0, blockdim_ := 0,
    mat_ := { row_offset := none, col := none, val := none,
              nrowb := 0, ncolb := 0, nnzb := 0, blockdim := 2 } }

/-- A regrouping kernel that always fails. -/
def noKernel : HIPAcceleratorMatrixCSR Int → MatrixBCSR Int → Option (MatrixBCSR Int) :=
  fun _ _ => none

/-! ## Helper lemmas -/

/-- `Clear` never touches the `blockdim_` member. -/
theorem clear_preserves_blockdim {V : Type} (m : BCSRHandle V) :
    (Clear m).blockdim_ = m.blockdim_ := by
  unfold Clear
  split <;> rfl

/-! ## Claims -/

/-- C1: the claim reads that every transfer variant copies the value array as
`nnzb*blockdim*blockdim` elements of the matrix's value type.  The code slips
in the asynchronous variants: at the same one-block input (`nnzb = 1`,
`blockdim = 2`) with an 8-byte value type, the synchronous `CopyFromHost`
issues copies of 8, 4 and 32 bytes, while `CopyFromHostAsync` issues 8, 4 and
16 bytes — its value copy is sized `nnzb*blockdim*blockdim*sizeof(int)`,
which is not the 32 bytes that `1*2*2` elements of the 8-byte value type
require. -/
theorem c1_async_value_bytes_bug :
    eventBytes (CopyFromHost 8 freshM (HostOperand.bcsr srcM)) = [8, 4, 32] ∧
    eventBytes (CopyFromHostAsync freshM (HostOperand.bcsr srcM)) = [8, 4, 16] ∧
    (16 : Int) ≠ 1 * 2 * 2 * 8 := by decide

/-- C2: the claim reads that the destination is allocated if and only if the
destination's `nnz` is zero before the copy.  `CopyToAsync` instead tests the
SOURCE's `nnz_`: copying the populated `srcM` onto a fresh empty device
destination skips the allocation and dies on the shape assertion, while the
synchronous `CopyTo` at the identical operands allocates the destination and
completes. -/
theorem c2_copy_to_async_alloc_bug :
    CopyToAsync srcM (BaseOperand.hipBcsr freshM) = CopyResult.assertFail ∧
    CopyTo 8 srcM (BaseOperand.hipBcsr freshM) =
      CopyResult.ok srcM
        [⟨2, 4, CopyDir.deviceToDevice⟩, ⟨1, 4, CopyDir.deviceToDevice⟩,
         ⟨4, 8, CopyDir.deviceToDevice⟩] := by decide

/-- C3 (counterexample): the claim reads that after every mutating operation,
including `Clear`, the scalar shape fields equal the derived block-layout
values.  The handle allocated as one 2x2 block satisfies the equality, but
`Clear` zeroes only the scalar fields and leaves `nrowb = ncolb = 1`,
`nnzb = 1`, `blockdim = 2` behind, so the equality fails on the cleared
handle. -/
theorem c3_clear_breaks_derived_shape :
    AllocateBCSR freshM 1 1 1 2 = some allocM ∧ DerivedConsistent allocM ∧
    ¬ DerivedConsistent (Clear allocM) := by decide

/-- C3 (amended): `AllocateBCSR` with `nnzb > 0`, `SetDataPtrBCSR`, and
`LeaveDataPtrBCSR` all re-establish the derived-shape equality before
returning; `Clear` does not, since it leaves the block-layout fields stale. -/
theorem c3_derived_shape_reestablished {V : Type} [Zero V] :
    (∀ (m m' : BCSRHandle V) (nnzb nrowb ncolb bd : Int), 0 < nnzb →
        AllocateBCSR m nnzb nrowb ncolb bd = some m' → DerivedConsistent m') ∧
    (∀ (m m' : BCSRHandle V) (ro co : Option (List Int)) (vo : Option (List V))
        (nnzb nrowb ncolb bd : Int),
        SetDataPtrBCSR m ro co vo nnzb nrowb ncolb bd = some m' → DerivedConsistent m') ∧
    (∀ (m m' : BCSRHandle V) (ro co : Option (List Int)) (vo : Option (List V)) (bd : Int),
        LeaveDataPtrBCSR m = some (ro, co, vo, bd, m') → DerivedConsistent m') := by
  refine ⟨?_, ?_, ?_⟩
  · intro m m' nnzb nrowb ncolb bd hpos halloc
    simp only [AllocateBCSR] at halloc
    split at halloc
    all_goals first
      | (cases halloc; exact ⟨rfl, rfl, rfl⟩)
      | exact Option.noConfusion halloc
  · intro m m' ro co vo nnzb nrowb ncolb bd hset
    simp only [SetDataPtrBCSR] at hset
    split at hset
    · cases hset
      exact ⟨rfl, rfl, rfl⟩
    · exact Option.noConfusion hset
  · intro m m' ro co vo bd hleave
    simp only [LeaveDataPtrBCSR] at hleave
    split at hleave
    · cases hleave
      exact ⟨by simp, by simp, by simp⟩
    · exact Option.noConfusion hleave

/-- C3 (witness): the amended theorem applied to the concrete one-block
allocation. -/
theorem c3_derived_shape_witness : DerivedConsistent allocM :=
  (c3_derived_shape_reestablished (V := Int)).1 freshM allocM 1 1 1 2 (by decide) (by decide)

/-- C5: for every handle consistent in the empty state and every
`(nnzb, nrowb, ncolb, blockdim)` passing the assertions (`nnzb, nrowb,
ncolb >= 0`, `blockdim > 1`), `AllocateBCSR` succeeds; when `nnzb > 0` the
scalar shape is the derived one and all three arrays are allocated zero-filled
(at their exact lengths), and when `nnzb = 0` the handle is left in the empty
state. -/
theorem c5_allocate_post {V : Type} [Zero V] (m : BCSRHandle V)
    (nnzb nrowb ncolb bd : Int)
    (hm : m.nnz_ = 0 → m.nrow_ = 0 ∧ m.ncol_ = 0) (hnn : 0 ≤ m.nnz_)
    (h1 : 0 ≤ nnzb) (h2 : 0 ≤ nrowb) (h3 : 0 ≤ ncolb) (h4 : 1 < bd) :
    ∃ m', AllocateBCSR m nnzb nrowb ncolb bd = some m' ∧
      (0 < nnzb →
        m'.nrow_ = nrowb * bd ∧ m'.ncol_ = ncolb * bd ∧ m'.nnz_ = nnzb * bd * bd ∧
        m'.mat_.row_offset = some (List.replicate (nrowb + 1).toNat (0 : Int)) ∧
        m'.mat_.col = some (List.replicate nnzb.toNat (0 : Int)) ∧
        m'.mat_.val = some (List.replicate (nnzb * bd * bd).toNat (0 : V))) ∧
      (nnzb = 0 → m'.nnz_ = 0 ∧ m'.nrow_ = 0 ∧ m'.ncol_ = 0) := by
  simp only [AllocateBCSR]
  rw [if_pos ⟨h1, h3, h2, h4⟩]
  by_cases hpos : 0 < nnzb
  · rw [if_pos hpos]
    exact ⟨_, rfl, fun _ => ⟨rfl, rfl, rfl, rfl, rfl, rfl⟩,
      fun hz => absurd hz (by omega)⟩
  · rw [if_neg hpos]
    by_cases hz : m.nnz_ > 0
    · rw [if_pos hz]
      refine ⟨_, rfl, fun hc => absurd hc hpos, fun _ => ?_⟩
      simp [Clear, hz]
    · rw [if_neg hz]
      have h0 : m.nnz_ = 0 := le_antisymm (not_lt.mp hz) hnn
      exact ⟨_, rfl, fun hc => absurd hc hpos, fun _ => ⟨h0, (hm h0).1, (hm h0).2⟩⟩

/-- C5 (witness): allocating one 2x2 block on a fresh handle. -/
theorem c5_allocate_post_witness :
    ∃ m', AllocateBCSR freshM 1 1 1 2 = some m' ∧
      (0 < (1 : Int) →
        m'.nrow_ = 1 * 2 ∧ m'.ncol_ = 1 * 2 ∧ m'.nnz_ = 1 * 2 * 2 ∧
        m'.mat_.row_offset = some (List.replicate ((1 : Int) + 1).toNat (0 : Int)) ∧
        m'.mat_.col = some (List.replicate (1 : Int).toNat (0 : Int)) ∧
        m'.mat_.val = some (List.replicate ((1 : Int) * 2 * 2).toNat (0 : Int))) ∧
      ((1 : Int) = 0 → m'.nnz_ = 0 ∧ m'.nrow_ = 0 ∧ m'.ncol_ = 0) :=
  c5_allocate_post freshM 1 1 1 2 (by decide) (by decide) (by decide) (by decide)
    (by decide) (by decide)

/-- `LeaveDataPtrBCSR` on a handle passing its assertions returns the three
arrays and `mat_.blockdim`, leaving the emptied handle. -/
theorem leaveDataPtr_eq {V : Type} (m : BCSRHandle V)
    (h : 0 < m.nrow_ ∧ 0 < m.ncol_ ∧ 0 < m.nnz_ ∧ 1 < m.mat_.blockdim) :
    LeaveDataPtrBCSR m = some
      (m.mat_.row_offset, m.mat_.col, m.mat_.val, m.mat_.blockdim,
        { m with
          nrow_ := 0
          ncol_ := 0
          nnz_ := 0
          mat_ := { m.mat_ with row_offset := none, col := none, val := none, blockdim := 0 } }) := by
  simp only [LeaveDataPtrBCSR]
  rw [if_pos h]

/-- C6: for every handle and non-null array triple with `nnzb, nrowb,
ncolb > 0` and `blockdim > 1`, `SetDataPtrBCSR` immediately followed by
`LeaveDataPtrBCSR` hands back exactly the three arrays and the `blockdim`
that were passed in, and leaves the handle empty
(`nrow_ = ncol_ = nnz_ = 0`, all arrays null). -/
theorem c6_set_then_leave {V : Type} (m : BCSRHandle V) (ro co : Option (List Int))
    (vo : Option (List V)) (nnzb nrowb ncolb bd : Int)
    (hro : ro.isSome) (hco : co.isSome) (hvo : vo.isSome)
    (h1 : 0 < nnzb) (h2 : 0 < nrowb) (h3 : 0 < ncolb) (h4 : 1 < bd) :
    ∃ m1, SetDataPtrBCSR m ro co vo nnzb nrowb ncolb bd = some m1 ∧
      ∃ m2, LeaveDataPtrBCSR m1 = some (ro, co, vo, bd, m2) ∧
        m2.nrow_ = 0 ∧ m2.ncol_ = 0 ∧ m2.nnz_ = 0 ∧
        m2.mat_.row_offset = none ∧ m2.mat_.col = none ∧ m2.mat_.val = none := by
  have hbd0 : (0 : Int) < bd := lt_trans one_pos h4
  have hset : SetDataPtrBCSR m ro co vo nnzb nrowb ncolb bd = some
      { nrow_ := nrowb * bd, ncol_ := ncolb * bd, nnz_ := nnzb * bd * bd, blockdim_ := bd,
        mat_ := { row_offset := ro, col := co, val := vo,
                  nrowb := nrowb, ncolb := ncolb, nnzb := nnzb, blockdim := bd } } := by
    simp only [SetDataPtrBCSR]
    rw [if_pos ⟨hro, hco, hvo, h1, h2, h3, h4⟩]
  refine ⟨_, hset, ?_⟩
  have hleave := leaveDataPtr_eq (V := V)
    { nrow_ := nrowb * bd, ncol_ := ncolb * bd, nnz_ := nnzb * bd * bd, blockdim_ := bd,
      mat_ := { row_offset := ro, col := co, val := vo,
                nrowb := nrowb, ncolb := ncolb, nnzb := nnzb, blockdim := bd } }
    ⟨mul_pos h2 hbd0, mul_pos h3 hbd0, mul_pos (mul_pos h1 hbd0) hbd0, h4⟩
  exact ⟨_, hleave, rfl, rfl, rfl, rfl, rfl, rfl⟩

/-- C6 (witness): one 2x2 block handed in and straight back out. -/
theorem c6_set_then_leave_witness :
    ∃ m1, SetDataPtrBCSR freshM (some [0, 1]) (some [0]) (some [1, 0, 0, 1]) 1 1 1 2 = some m1 ∧
      ∃ m2, LeaveDataPtrBCSR m1 = some (some [0, 1], some [0], some [1, 0, 0, 1], 2, m2) ∧
        m2.nrow_ = 0 ∧ m2.ncol_ = 0 ∧ m2.nnz_ = 0 ∧
        m2.mat_.row_offset = none ∧ m2.mat_.col = none ∧ m2.mat_.val = none :=
  c6_set_then_leave freshM (some [0, 1]) (some [0]) (some [1, 0, 0, 1]) 1 1 1 2
    (by decide) (by decide) (by decide) (by decide) (by decide) (by decide) (by decide)

/-- C7: on the cross-format path (device CSR source, nonzero nnz), when the
regrouping kernel fails, `ConvertFrom` returns `false` and the destination is
left in the cleared state: zero scalar shape and no arrays, with no partial
layout to observe.  The kernel `csr_to_bcsr_hip` is external to the sources;
per the spec it is modelled as a fallible function that leaves the
destination layout unmodified on failure. -/
theorem c7_convert_kernel_failure {V : Type} [Zero V] (sizeofV : Int)
    (kernel : HIPAcceleratorMatrixCSR V → MatrixBCSR V → Option (MatrixBCSR V))
    (m : BCSRHandle V) (csr : HIPAcceleratorMatrixCSR V)
    (hsrc : csr.nnz_ ≠ 0) (h0 : 0 ≤ m.nnz_)
    (hm : m.nnz_ = 0 → m.nrow_ = 0 ∧ m.ncol_ = 0 ∧
      m.mat_.row_offset = none ∧ m.mat_.col = none ∧ m.mat_.val = none)
    (hker : kernel csr
      { (Clear (Clear m)).mat_ with blockdim := (Clear (Clear m)).blockdim_ } = none) :
    ∃ st, ConvertFrom sizeofV kernel m (BaseOperand.hipCsr csr) = ConvertResult.ret false st ∧
      st.nnz_ = 0 ∧ st.nrow_ = 0 ∧ st.ncol_ = 0 ∧
      st.mat_.row_offset = none ∧ st.mat_.col = none ∧ st.mat_.val = none := by
  have hconv : ConvertFrom sizeofV kernel m (BaseOperand.hipCsr csr)
      = ConvertResult.ret false
        { Clear (Clear m) with
          mat_ := { (Clear (Clear m)).mat_ with blockdim := (Clear (Clear m)).blockdim_ } } := by
    simp only [ConvertFrom, BaseOperand.GetNnz]
    rw [if_neg hsrc, hker]
  refine ⟨_, hconv, ?_⟩
  by_cases hz : m.nnz_ > 0
  · simp [Clear, hz]
  · have hz0 : m.nnz_ = 0 := le_antisymm (not_lt.mp hz) h0
    obtain ⟨ha, hb, hc, hd, he⟩ := hm hz0
    simp [Clear, hz, hz0, ha, hb, hc, hd, he]

/-- C7 (witness): converting from a concrete CSR source with a kernel that
always fails. -/
theorem c7_convert_kernel_failure_witness :
    ∃ st, ConvertFrom 8 noKernel srcM (BaseOperand.hipCsr ⟨4, 2, 2⟩) =
        ConvertResult.ret false st ∧
      st.nnz_ = 0 ∧ st.nrow_ = 0 ∧ st.ncol_ = 0 ∧
      st.mat_.row_offset = none ∧ st.mat_.col = none ∧ st.mat_.val = none :=
  c7_convert_kernel_failure 8 noKernel srcM ⟨4, 2, 2⟩ (by decide) (by decide)
    (by decide) (by decide)

/-- C8 (counterexample): the claim reads that `ConvertFrom` on an unsupported
source type returns `false`.  But `ConvertFrom` tests `GetNnz() == 0` before
any type dispatch, so an EMPTY source of a fully unsupported run-time type
yields `true`, not `false`. -/
theorem c8_convert_empty_unsupported_true :
    ConvertFrom 8 noKernel freshM (BaseOperand.unknown MatFormat.OTHER 0) =
      ConvertResult.ret true freshM ∧
    (BaseOperand.unknown MatFormat.OTHER 0 : BaseOperand Int).GetNnz = 0 ∧
    ConvertResult.ret true freshM ≠ ConvertResult.ret false freshM := by decide

/-- C8 (amended): for a source of unsupported run-time type whose format tag
matches BCSR (so the format assertion passes), `CopyFrom` and `CopyTo`
terminate fatally after logging the unsupported-type message and both
operands' `Info`, while `ConvertFrom` on such a source with nonzero nnz
returns `false` (merely clearing the destination) without terminating; an
empty unsupported source instead succeeds trivially. -/
theorem c8_copy_fatal_convert_recoverable {V : Type} [Zero V] (sizeofV : Int)
    (kernel : HIPAcceleratorMatrixCSR V → MatrixBCSR V → Option (MatrixBCSR V))
    (m : BCSRHandle V) (nz : Int) (hnz : nz ≠ 0) :
    CopyFrom sizeofV m (BaseOperand.unknown MatFormat.BCSR nz) =
      CopyResult.fatal [Diag.unsupportedType, Diag.infoThis, Diag.infoArg] ∧
    CopyTo sizeofV m (BaseOperand.unknown MatFormat.BCSR nz) =
      CopyResult.fatal [Diag.unsupportedType, Diag.infoThis, Diag.infoArg] ∧
    ConvertFrom sizeofV kernel m (BaseOperand.unknown MatFormat.BCSR nz) =
      ConvertResult.ret false (Clear m) := by
  refine ⟨?_, ?_, ?_⟩
  · simp [CopyFrom, BaseOperand.GetMatFormat]
  · simp [CopyTo, BaseOperand.GetMatFormat]
  · simp [ConvertFrom, BaseOperand.GetNnz, hnz]

/-- C8 (witness): a nonempty unsupported source against a fresh handle. -/
theorem c8_copy_fatal_convert_recoverable_witness :
    CopyFrom 8 freshM (BaseOperand.unknown MatFormat.BCSR 4) =
      CopyResult.fatal [Diag.unsupportedType, Diag.infoThis, Diag.infoArg] ∧
    CopyTo 8 freshM (BaseOperand.unknown MatFormat.BCSR 4) =
      CopyResult.fatal [Diag.unsupportedType, Diag.infoThis, Diag.infoArg] ∧
    ConvertFrom 8 noKernel freshM (BaseOperand.unknown MatFormat.BCSR 4) =
      ConvertResult.ret false (Clear freshM) :=
  c8_copy_fatal_convert_recoverable 8 noKernel freshM 4 (by decide)

/-- C9: with `nnz_ = 0`, `Apply` and `ApplyAdd` return with the output vector
untouched and without invoking the backend multiply kernel, for every possible
kernel behaviour. -/
theorem c9_apply_empty_noop {V : Type} [Zero V] [One V]
    (bsrmv bsrmvAdd : V → MatrixBCSR V → List V → V → List V → List V)
    (m : BCSRHandle V) (inp out : VecArg V) (scalar : V) (h : m.nnz_ = 0) :
    Apply bsrmv m inp out = ApplyResult.ok out.vec_ false ∧
    ApplyAdd bsrmvAdd m inp scalar out = ApplyResult.ok out.vec_ false := by
  constructor <;> simp [Apply, ApplyAdd, h]

/-- A stand-in multiply kernel used only to instantiate witnesses. -/
def tbsrmvId : Int → MatrixBCSR Int → List Int → Int → List Int → List Int :=
  fun _ _ _ _ y => y

/-- C9 (witness): an empty handle applied to concrete vectors. -/
theorem c9_apply_empty_noop_witness :
    Apply tbsrmvId freshM ⟨0, true, [5]⟩ ⟨0, true, [7]⟩ = ApplyResult.ok [7] false ∧
    ApplyAdd tbsrmvId freshM ⟨0, true, [5]⟩ 3 ⟨0, true, [7]⟩ = ApplyResult.ok [7] false :=
  c9_apply_empty_noop tbsrmvId tbsrmvId freshM ⟨0, true, [5]⟩ ⟨0, true, [7]⟩ 3 (by decide)

/-- C10: `AllocateBCSR` never writes the handle's `blockdim_` member (it sets
only `mat_.blockdim`), so `blockdim_` after a successful `AllocateBCSR` equals
`blockdim_` before. -/
theorem c10_allocate_preserves_blockdim {V : Type} [Zero V]
    (m m' : BCSRHandle V) (nnzb nrowb ncolb bd : Int)
    (h : AllocateBCSR m nnzb nrowb ncolb bd = some m') :
    m'.blockdim_ = m.blockdim_ := by
  simp only [AllocateBCSR] at h
  split at h
  · split at h
    · cases h
      split <;> first | exact clear_preserves_blockdim m | rfl
    · cases h
      split <;> first | exact clear_preserves_blockdim m | rfl
  · exact Option.noConfusion h

/-- C10 (witness): the concrete one-block allocation leaves `blockdim_` at its
prior value. -/
theorem c10_allocate_preserves_blockdim_witness : allocM.blockdim_ = freshM.blockdim_ :=
  c10_allocate_preserves_blockdim freshM allocM 1 1 1 2 (by decide)

/-- C4 (counterexample): the claim reads that on empty operands the
synchronous variants issue all three copies "as zero-length operations".  At
two concrete empty handles the synchronous `CopyFromHost` issues copies of
1, 0 and 0 elements: the row-pointer copy transfers `nrowb + 1 = 1` elements,
which is not zero-length. -/
theorem c4_sync_row_pointer_not_zero_length :
    eventCounts (CopyFromHost 8 emptyBd2 (HostOperand.bcsr emptyBd2)) = [1, 0, 0] ∧
    (1 : Int) ≠ 0 := by decide

/-- C4 (amended): when source and destination are both empty (zero `nnz_`,
zero block counts, null destination arrays, agreeing block-descriptor fields
with `blockdim > 1` so the first-use allocation's assertions pass), every
asynchronous transfer variant skips all three array copies, while the
corresponding synchronous variant still issues all three — the column-index
and value copies zero-length but the row-pointer copy of `nrowb + 1` elements
— and both leave the destination in the same logical state. -/
theorem c4_async_skips_sync_issues {V : Type} [Zero V] [DecidableEq V] (sizeofV : Int)
    (dst src : BCSRHandle V)
    (h1 : dst.nnz_ = 0) (h2 : src.nnz_ = 0)
    (h3 : dst.mat_.nnzb = 0) (h4 : src.mat_.nnzb = 0)
    (h5 : dst.mat_.nrowb = src.mat_.nrowb) (h6 : 0 ≤ src.mat_.nrowb)
    (h7 : dst.mat_.ncolb = src.mat_.ncolb) (h8 : 0 ≤ src.mat_.ncolb)
    (h9 : dst.mat_.blockdim = src.mat_.blockdim) (h10 : 1 < src.mat_.blockdim)
    (h11 : dst.nrow_ = src.nrow_) (h12 : dst.ncol_ = src.ncol_)
    (h13 : dst.mat_.row_offset = none) (h14 : dst.mat_.col = none)
    (h15 : dst.mat_.val = none) :
    CopyFromHostAsync dst (HostOperand.bcsr src) = CopyResult.ok dst [] ∧
    CopyToHostAsync src (HostOperand.bcsr dst) = CopyResult.ok dst [] ∧
    CopyFromAsync dst (BaseOperand.hipBcsr src) = CopyResult.ok dst [] ∧
    CopyToAsync src (BaseOperand.hipBcsr dst) = CopyResult.ok dst [] ∧
    CopyFromHost sizeofV dst (HostOperand.bcsr src) = CopyResult.ok dst
      [⟨dst.mat_.nrowb + 1, sizeofInt, CopyDir.hostToDevice⟩,
       ⟨0, sizeofInt, CopyDir.hostToDevice⟩, ⟨0, sizeofV, CopyDir.hostToDevice⟩] ∧
    CopyToHost sizeofV src (HostOperand.bcsr dst) = CopyResult.ok dst
      [⟨src.mat_.nrowb + 1, sizeofInt, CopyDir.deviceToHost⟩,
       ⟨0, sizeofInt, CopyDir.deviceToHost⟩, ⟨0, sizeofV, CopyDir.deviceToHost⟩] ∧
    CopyFrom sizeofV dst (BaseOperand.hipBcsr src) = CopyResult.ok dst
      [⟨dst.mat_.nrowb + 1, sizeofInt, CopyDir.deviceToDevice⟩,
       ⟨0, sizeofInt, CopyDir.deviceToDevice⟩, ⟨0, sizeofV, CopyDir.deviceToDevice⟩] ∧
    CopyTo sizeofV src (BaseOperand.hipBcsr dst) = CopyResult.ok dst
      [⟨src.mat_.nrowb + 1, sizeofInt, CopyDir.deviceToDevice⟩,
       ⟨0, sizeofInt, CopyDir.deviceToDevice⟩, ⟨0, sizeofV, CopyDir.deviceToDevice⟩] := by
  obtain ⟨dnr, dnc, dnz, dbdm, ⟨dro, dco, dvo, dnrb, dncb, dnzb, dbd⟩⟩ := dst
  obtain ⟨snr, snc, snz, sbdm, ⟨sro, sco, svo, snrb, sncb, snzb, sbd⟩⟩ := src
  dsimp only at h1 h2 h3 h4 h5 h6 h7 h8 h9 h10 h11 h12 h13 h14 h15 ⊢
  subst h1 h2 h3 h4 h5 h7 h9 h11 h12 h13 h14 h15
  refine ⟨?_, ?_, ?_, ?_, ?_, ?_, ?_, ?_⟩ <;>
    simp [CopyFromHostAsync, CopyToHostAsync, CopyFromAsync, CopyToAsync,
      CopyFromHost, CopyToHost, CopyFrom, CopyTo, AllocateBCSR, Clear, memcpyArr,
      HostOperand.GetMatFormat, BaseOperand.GetMatFormat, h6, h8, h10]

/-- C4 (witness): the amended theorem at two concrete empty handles with
`blockdim = 2` and an 8-byte value type. -/
theorem c4_async_skips_sync_issues_witness :
    CopyFromHostAsync emptyBd2 (HostOperand.bcsr emptyBd2) = CopyResult.ok emptyBd2 [] ∧
    CopyToHostAsync emptyBd2 (HostOperand.bcsr emptyBd2) = CopyResult.ok emptyBd2 [] ∧
    CopyFromAsync emptyBd2 (BaseOperand.hipBcsr emptyBd2) = CopyResult.ok emptyBd2 [] ∧
    CopyToAsync emptyBd2 (BaseOperand.hipBcsr emptyBd2) = CopyResult.ok emptyBd2 [] ∧
    CopyFromHost 8 emptyBd2 (HostOperand.bcsr emptyBd2) = CopyResult.ok emptyBd2
      [⟨emptyBd2.mat_.nrowb + 1, sizeofInt, CopyDir.hostToDevice⟩,
       ⟨0, sizeofInt, CopyDir.hostToDevice⟩, ⟨0, 8, CopyDir.hostToDevice⟩] ∧
    CopyToHost 8 emptyBd2 (HostOperand.bcsr emptyBd2) = CopyResult.ok emptyBd2
      [⟨emptyBd2.mat_.nrowb + 1, sizeofInt, CopyDir.deviceToHost⟩,
       ⟨0, sizeofInt, CopyDir.deviceToHost⟩, ⟨0, 8, CopyDir.deviceToHost⟩] ∧
    CopyFrom 8 emptyBd2 (BaseOperand.hipBcsr emptyBd2) = CopyResult.ok emptyBd2
      [⟨emptyBd2.mat_.nrowb + 1, sizeofInt, CopyDir.deviceToDevice⟩,
       ⟨0, sizeofInt, CopyDir.deviceToDevice⟩, ⟨0, 8, CopyDir.deviceToDevice⟩] ∧
    CopyTo 8 emptyBd2 (BaseOperand.hipBcsr emptyBd2) = CopyResult.ok emptyBd2
      [⟨emptyBd2.mat_.nrowb + 1, sizeofInt, CopyDir.deviceToDevice⟩,
       ⟨0, sizeofInt, CopyDir.deviceToDevice⟩, ⟨0, 8, CopyDir.deviceToDevice⟩] :=
  c4_async_skips_sync_issues 8 emptyBd2 emptyBd2 (by decide) (by decide) (by decide)
    (by decide) (by decide) (by decide) (by decide) (by decide) (by decide) (by decide)
    (by decide) (by decide) (by decide) (by decide) (by decide)

end Rocalution
